import Mathlib

/-!
Verification of the ITS traffic-camera dashboard frontend.

The development shallowly embeds the coordinate-mapping, overlay-compositing
and detection-page state logic of the repository:
  - `src/frontend/src/components/DetectionViewer.tsx`
  - `src/frontend/src/components/PolygonEditor.tsx`
  - the detection page (`DetectionPage`) and the API types (`lib/api.ts`).

JavaScript numbers are modelled as rationals (`ℚ`), so every arithmetic
identity proved here holds exactly, hence in particular "within
floating-point tolerance".  JavaScript `null`/`undefined` values are
modelled with `Option`; the JS `||` fallback on a number (falsy exactly on
`0`, `NaN` and `undefined`) is modelled by `jsOrNum`, and on a string
(falsy exactly on `""`) by `jsOrStr`.
-/

namespace ITS

/-- `Point` from `lib/api.ts`: a frame-space pixel coordinate. -/
structure Point where
  x : ℚ
  y : ℚ
deriving DecidableEq, Inhabited

/-- `BoundingBox` from `lib/api.ts`. -/
structure BoundingBox where
  x1 : ℚ
  y1 : ℚ
  x2 : ℚ
  y2 : ℚ
deriving DecidableEq, Inhabited

/-- `Detection` from `lib/api.ts`; `track_id` is nullable. -/
structure Detection where
  bbox : BoundingBox
  class_name : String
  class_id : Int
  confidence : ℚ
  track_id : Option Int
deriving DecidableEq, Inhabited

/-- `ZonePolygon` from `lib/api.ts`. -/
structure ZonePolygon where
  id : String
  name : String
  points : List Point
  is_parking_zone : Bool
  is_traffic_light : Bool
  is_red_light : Bool
  is_stop_line : Bool
  linked_traffic_light_id : Option String
  color : String
deriving DecidableEq, Inhabited

/-- `ParkingViolation` from `lib/api.ts`; its `track_id` is non-nullable. -/
structure ParkingViolation where
  track_id : Int
  vehicle_class : String
  zone_id : String
  zone_name : String
  duration_seconds : ℚ
  bbox : BoundingBox
deriving DecidableEq, Inhabited

/-- `DetectionResult` from `lib/api.ts` (`vehicle_count` is a string-keyed
record, modelled as an association list). -/
structure DetectionResult where
  detections : List Detection
  vehicle_count : List (String × ℚ)
  total_count : ℚ
  frame_width : ℚ
  frame_height : ℚ
  processing_time_ms : ℚ
deriving DecidableEq, Inhabited

/-- JS `v || d` for a possibly-undefined number `v`: the default is taken
when `v` is `undefined` (`none`) or `0` (the falsy number relevant here). -/
def jsOrNum (v : Option ℚ) (d : ℚ) : ℚ :=
  match v with
  | none => d
  | some x => if x = 0 then d else x

/-- JS `s || d` for a string `s`: the default is taken exactly when `s` is
the empty string. -/
def jsOrStr (s d : String) : String :=
  if s = "" then d else s

/-! ## Coordinate mapper

`DetectionViewer.tsx` lines 49-55 and `PolygonEditor.tsx` lines 54-60
guard the frame and container dimensions with `|| 640` / `|| 360` and
derive the per-axis scale factors. -/

/-- `safeFrameWidth = frameWidth || 640`. -/
def safeFrameWidth (frameWidth : Option ℚ) : ℚ := jsOrNum frameWidth 640

/-- `safeFrameHeight = frameHeight || 360`. -/
def safeFrameHeight (frameHeight : Option ℚ) : ℚ := jsOrNum frameHeight 360

/-- `safeContainerWidth = containerWidth || 640`. -/
def safeContainerWidth (containerWidth : Option ℚ) : ℚ := jsOrNum containerWidth 640

/-- `safeContainerHeight = containerHeight || 360`. -/
def safeContainerHeight (containerHeight : Option ℚ) : ℚ := jsOrNum containerHeight 360

/-- `scaleX = safeContainerWidth / safeFrameWidth`. -/
def scaleX (containerWidth frameWidth : Option ℚ) : ℚ :=
  safeContainerWidth containerWidth / safeFrameWidth frameWidth

/-- `scaleY = safeContainerHeight / safeFrameHeight`. -/
def scaleY (containerHeight frameHeight : Option ℚ) : ℚ :=
  safeContainerHeight containerHeight / safeFrameHeight frameHeight

/-- The frame-space → viewport-space mapping applied to every drawn point:
both `draw` routines multiply each coordinate by the scale factor
(e.g. `zone.points[0].x * scaleX` in `DetectionViewer.tsx` line 74 and the
box corners in lines 107-110). -/
def toViewport (sx sy : ℚ) (p : Point) : Point :=
  { x := p.x * sx, y := p.y * sy }

/-- The on-screen bounding rectangle of the overlay canvas, as returned by
`getBoundingClientRect()`: only its origin is used by the mapper. -/
structure DOMRect where
  left : ℚ
  top : ℚ
deriving DecidableEq, Inhabited

/-- `toFrameCoords` from `PolygonEditor.tsx` lines 65-72: subtract the
canvas origin from the client coordinates, then divide by the scale
factors. -/
def toFrameCoords (sx sy : ℚ) (clientX clientY : ℚ) (rect : DOMRect) : Point :=
  { x := (clientX - rect.left) / sx, y := (clientY - rect.top) / sy }

/-- The viewport rectangle at which `DetectionViewer.tsx` lines 107-114
strokes a detection box: scaled top-left corner, and width/height as scaled
coordinate differences. -/
structure ViewportRect where
  x : ℚ
  y : ℚ
  w : ℚ
  h : ℚ
deriving DecidableEq, Inhabited

/-- `x1/y1/w/h` computed in `DetectionViewer.tsx` lines 107-110. -/
def detectionViewportRect (sx sy : ℚ) (b : BoundingBox) : ViewportRect :=
  { x := b.x1 * sx
    y := b.y1 * sy
    w := (b.x2 - b.x1) * sx
    h := (b.y2 - b.y1) * sy }

/-! ## Detection pass of the overlay compositor

`DetectionViewer.tsx` lines 17-31 and 102-147. -/

/-- `CLASS_COLORS` from `DetectionViewer.tsx` lines 17-24, as a lookup. -/
def CLASS_COLORS (className : String) : Option String :=
  if className = "car" then some "#00FF00"
  else if className = "motorcycle" then some "#FFFF00"
  else if className = "bus" then some "#FF8800"
  else if className = "truck" then some "#FF00FF"
  else if className = "bicycle" then some "#00FFFF"
  else if className = "person" then some "#0088FF"
  else none

/-- `VIOLATION_COLOR` from `DetectionViewer.tsx` line 26. -/
def VIOLATION_COLOR : String := "#FF0000"

/-- `getColor` from `DetectionViewer.tsx` lines 28-31: the violation color
when flagged, otherwise the class-keyed color with a green default. -/
def getColor (className : String) (isViolation : Bool) : String :=
  if isViolation then VIOLATION_COLOR
  else (CLASS_COLORS className).getD "#00FF00"

/-- `violationTrackIds` from `DetectionViewer.tsx` line 47: the set of
track ids of the current violations (modelled as the list of keys;
membership is all that is ever asked of it). -/
def violationTrackIds (violations : List ParkingViolation) : List Int :=
  violations.map (fun v => v.track_id)

/-- The `isViolation` flag computed per detection in `DetectionViewer.tsx`
line 104: `showViolations && det.track_id !== null &&
violationTrackIds.has(det.track_id)`. -/
def isViolationDet (showViolations : Bool) (violations : List ParkingViolation)
    (det : Detection) : Bool :=
  showViolations &&
    match det.track_id with
    | none => false
    | some tid => (violationTrackIds violations).contains tid

/-- What the compositor paints for one detection (`DetectionViewer.tsx`
lines 102-147): box color and line width, the label data when labels are
shown (track id, class name, confidence as drawn), and the duration shown
in the red violation callout when one is drawn. -/
structure DetRender where
  rect : ViewportRect
  color : String
  lineWidth : ℚ
  label : Option (Option Int × String × ℚ)
  callout : Option ℚ
deriving DecidableEq

/-- The per-detection body of the `draw` loop, `DetectionViewer.tsx`
lines 103-147.  The callout is drawn only when the detection is flagged,
`violations.find` succeeds and labels are shown (lines 133-145). -/
def renderDetection (showLabels showViolations : Bool)
    (violations : List ParkingViolation) (sx sy : ℚ) (det : Detection) : DetRender :=
  let isV := isViolationDet showViolations violations det
  { rect := detectionViewportRect sx sy det.bbox
    color := getColor det.class_name isV
    lineWidth := if isV then 4 else 3
    label := if showLabels then some (det.track_id, det.class_name, det.confidence) else none
    callout :=
      if isV then
        match violations.find? (fun v => det.track_id = some v.track_id) with
        | some v => if showLabels then some v.duration_seconds else none
        | none => none
      else none }

/-! ## Zone pass of the overlay compositor, `DetectionViewer.tsx` lines 69-100 -/

/-- What `DetectionViewer.tsx` paints for one zone: the scaled polygon,
fill and stroke colors, and the label (text and scaled anchor) when labels
are shown. -/
structure DVZoneRender where
  pts : List Point
  fill : String
  stroke : String
  label : Option (String × ℚ × ℚ)
deriving DecidableEq

/-- The per-zone body of the `DetectionViewer.tsx` zone loop (lines 70-99):
zones with fewer than 3 points are skipped (`continue`, line 71); the fill
is keyed on `is_parking_zone`, the stroke is `zone.color ||` a keyed
default, the label anchor is the scaled first point offset by (5, 20). -/
def dvRenderZone (showLabels : Bool) (sx sy : ℚ) (zone : ZonePolygon) :
    Option DVZoneRender :=
  if zone.points.length < 3 then none
  else some
    { pts := zone.points.map (toViewport sx sy)
      fill := if zone.is_parking_zone then "rgba(255, 0, 0, 0.2)" else "rgba(0, 255, 0, 0.2)"
      stroke := jsOrStr zone.color (if zone.is_parking_zone then "#FF0000" else "#00FF00")
      label :=
        if showLabels then
          some (zone.name, zone.points.headI.x * sx + 5, zone.points.headI.y * sy + 20)
        else none }

/-- The whole zone pass, `DetectionViewer.tsx` lines 69-100: guarded by
`showZones && zones.length > 0`, then one render per zone in order. -/
def dvRenderZones (showZones showLabels : Bool) (sx sy : ℚ)
    (zones : List ZonePolygon) : List DVZoneRender :=
  if showZones && decide (0 < zones.length) then
    zones.filterMap (dvRenderZone showLabels sx sy)
  else []

/-! ## Zone pass of the polygon editor, `PolygonEditor.tsx` lines 74-192 -/

/-- `zones.find((z) => z.id === zone.linked_traffic_light_id)`, the
linked-light lookup used by `getZoneColor`, `getZoneStrokeColor`, the label
and the link line.  A `null` link matches no zone (JS `===` against
`null` is false for every string id). -/
def findLinkedLight (zones : List ZonePolygon) (zone : ZonePolygon) :
    Option ZonePolygon :=
  zones.find? (fun z => some z.id = zone.linked_traffic_light_id)

/-- `getZoneColor` from `PolygonEditor.tsx` lines 74-93. -/
def getZoneColor (zones : List ZonePolygon) (zone : ZonePolygon) : String :=
  if zone.is_traffic_light then
    if zone.is_red_light then "rgba(255, 0, 0, 0.35)" else "rgba(0, 255, 0, 0.35)"
  else if zone.is_stop_line then
    match findLinkedLight zones zone with
    | some l => if l.is_red_light then "rgba(255, 0, 0, 0.4)" else "rgba(255, 255, 255, 0.3)"
    | none => "rgba(255, 255, 255, 0.3)"
  else if zone.is_parking_zone then "rgba(255, 0, 0, 0.25)"
  else "rgba(0, 255, 0, 0.25)"

/-- `getZoneStrokeColor` from `PolygonEditor.tsx` lines 95-103. -/
def getZoneStrokeColor (zones : List ZonePolygon) (zone : ZonePolygon) : String :=
  if zone.is_stop_line then
    match findLinkedLight zones zone with
    | some l => if l.is_red_light then "#FF0000" else "#FFFFFF"
    | none => "#FFFFFF"
  else jsOrStr zone.color "#00FF00"

/-- The label text built in `PolygonEditor.tsx` lines 147-160. -/
def peZoneLabel (zones : List ZonePolygon) (zone : ZonePolygon) : String :=
  if zone.is_traffic_light then
    "🚦 " ++ zone.name ++ " " ++ (if zone.is_red_light then "🔴" else "🟢")
  else if zone.is_stop_line then
    "🚧 " ++ zone.name ++ " " ++
      (match findLinkedLight zones zone with
       | some l => if l.is_red_light then "🔴" else "🟢"
       | none => "⚠️")
  else zone.name

/-- The unweighted mean of a point list, as computed by the `reduce`
expressions in `PolygonEditor.tsx` lines 170-181. -/
def centroid (ps : List Point) : Point :=
  { x := (ps.map (fun p => p.x)).sum / ps.length
    y := (ps.map (fun p => p.y)).sum / ps.length }

/-- The dashed stop-line → traffic-light connector of `PolygonEditor.tsx`
lines 165-191, in viewport coordinates: drawn only when the zone is a
stop line with a truthy link, the lookup succeeds and the linked zone has
at least one point. -/
def peLinkLine (zones : List ZonePolygon) (sx sy : ℚ) (zone : ZonePolygon) :
    Option (Point × Point) :=
  if zone.is_stop_line &&
      (match zone.linked_traffic_light_id with
       | none => false
       | some s => !(s = "")) then
    match findLinkedLight zones zone with
    | some l =>
        if 0 < l.points.length then
          some (toViewport sx sy (centroid zone.points), toViewport sx sy (centroid l.points))
        else none
    | none => none
  else none

/-- What `PolygonEditor.tsx` paints for one saved zone (lines 117-192). -/
structure PEZoneRender where
  pts : List Point
  fill : String
  stroke : String
  lineWidth : ℚ
  dashed : Bool
  label : String
  linkLine : Option (Point × Point)
deriving DecidableEq

/-- The per-zone body of the `PolygonEditor.tsx` draw loop, lines 117-192:
zones with fewer than 3 points are skipped (`continue`, line 119); fill,
stroke, label and link line all consult the full zone list through the
linked-light lookup. -/
def peRenderZone (zones : List ZonePolygon) (sx sy : ℚ) (zone : ZonePolygon) :
    Option PEZoneRender :=
  if zone.points.length < 3 then none
  else some
    { pts := zone.points.map (toViewport sx sy)
      fill := getZoneColor zones zone
      stroke := getZoneStrokeColor zones zone
      lineWidth := if zone.is_traffic_light || zone.is_stop_line then 4 else 3
      dashed := zone.is_stop_line
      label := peZoneLabel zones zone
      linkLine := peLinkLine zones sx sy zone }

/-- The whole saved-zone pass of `PolygonEditor.tsx` `draw` (the
`for` loop of lines 117-192), in order. -/
def peRenderZones (sx sy : ℚ) (zones : List ZonePolygon) : List PEZoneRender :=
  zones.filterMap (peRenderZone zones sx sy)

/-! ## Zone editor state, `PolygonEditor.tsx` lines 20-52 and 239-306 -/

/-- `ZONE_COLORS` from `PolygonEditor.tsx` lines 24-31. -/
def ZONE_COLORS : List String :=
  ["#00FF00", "#FF8800", "#00FFFF", "#FF00FF", "#FFFF00", "#8800FF"]

/-- `ZoneType` from `PolygonEditor.tsx` line 33. -/
inductive ZoneType where
  | normal : ZoneType
  | parking : ZoneType
  | traffic_light : ZoneType
  | stop_line : ZoneType
deriving DecidableEq, Inhabited

/-- The editor's local state: `currentPoints`, `zoneName`, `zoneType` and
`linkedTrafficLightId` (`PolygonEditor.tsx` lines 49-52).  The pending link
target is a plain string, `""` meaning "no link selected". -/
structure EditorState where
  currentPoints : List Point
  zoneName : String
  zoneType : ZoneType
  linkedTrafficLightId : String
deriving DecidableEq, Inhabited

/-- The reset state every save or cancel leaves behind
(`PolygonEditor.tsx` lines 281-284 and 297-300). -/
def emptyEditorState : EditorState :=
  { currentPoints := [], zoneName := "", zoneType := ZoneType.normal,
    linkedTrafficLightId := "" }

/-- The zone literal built by `handleSaveZone`, `PolygonEditor.tsx`
lines 262-278.  `generateId()` is nondeterministic (timestamp + random), so
the fresh id is a parameter. -/
def savedZone (newId : String) (zones : List ZonePolygon) (st : EditorState) :
    ZonePolygon :=
  { id := newId
    name := jsOrStr st.zoneName ("Zone " ++ toString (zones.length + 1))
    points := st.currentPoints
    is_parking_zone := st.zoneType = ZoneType.parking
    is_traffic_light := st.zoneType = ZoneType.traffic_light
    is_red_light := false
    is_stop_line := st.zoneType = ZoneType.stop_line
    linked_traffic_light_id :=
      if st.zoneType = ZoneType.stop_line then some st.linkedTrafficLightId else none
    color :=
      if st.zoneType = ZoneType.traffic_light then "#FFFF00"
      else if st.zoneType = ZoneType.stop_line then "#FFFFFF"
      else (ZONE_COLORS.get? (zones.length % ZONE_COLORS.length)).getD "" }

/-- `handleSaveZone` from `PolygonEditor.tsx` lines 253-294.  The first
component is the zone passed to `onZoneAdd` (the network request); `none`
means the save was blocked locally with no request sent.  The second
component is the editor state afterwards: the early returns of lines 254
and 257-260 leave it untouched, a successful save resets it. -/
def handleSaveZone (newId : String) (zones : List ZonePolygon)
    (st : EditorState) : Option ZonePolygon × EditorState :=
  if st.currentPoints.length < 3 then (none, st)
  else if st.zoneType = ZoneType.stop_line && st.linkedTrafficLightId = "" then (none, st)
  else (some (savedZone newId zones st), emptyEditorState)

/-- `handleUndo` from `PolygonEditor.tsx` lines 304-306:
`prev.slice(0, -1)` drops the last placed point and touches nothing else. -/
def handleUndo (st : EditorState) : EditorState :=
  { st with currentPoints := st.currentPoints.dropLast }

/-! ## Detection-page state, `DetectionPage` (part_001 of the sources) -/

/-- The slice of `DetectionPage` state the feed-mode claims are about:
whether a WebSocket is held (`wsRef.current !== null`), whether the
snapshot-polling timer is held (`detectIntervalRef.current !== null`), the
current detection result, violation list, frame size and synced
annotated-frame override. -/
structure PageState where
  wsOpen : Bool
  timerActive : Bool
  result : Option DetectionResult
  violations : List ParkingViolation
  frameSize : ℚ × ℚ
  syncedFrame : Option String
deriving DecidableEq

/-- The `else` branch of the `isDetecting` effect (`DetectionPage`,
lines 300-311): close and drop the socket, clear and drop the timer,
`setResult(null)`, `setSyncedFrame(null)`.  Nothing else is written. -/
def detectionToggledOff (s : PageState) : PageState :=
  { s with wsOpen := false, timerActive := false, result := none,
           syncedFrame := none }

/-- The payload the client sends on socket open (`DetectionPage`
line 266): `{ video_url: cameraUrl, send_frame: true }`. -/
structure StreamRequest where
  video_url : String
  send_frame : Bool
deriving DecidableEq

/-- `ws.onopen` sends `StreamRequest` for the camera URL. -/
def wsOnOpenPayload (cameraUrl : String) : StreamRequest :=
  { video_url := cameraUrl, send_frame := true }

/-- A successfully parsed inbound socket message (`DetectionPage`
lines 272-288): `detection_result` carries a result, an optional violation
list and an optional inline frame; `connected` and `error` only update the
status text. -/
inductive WsMessage where
  | connected : WsMessage
  | detectionResult : DetectionResult → Option (List ParkingViolation) →
      Option String → WsMessage
  | errorMsg : String → WsMessage
deriving DecidableEq

/-- `ws.onmessage` (`DetectionPage` lines 269-292).  `none` stands for a
message whose handling threw (JSON parse failure): the `catch` only logs,
so the state is untouched and the socket stays open.  A `detection_result`
replaces the result, the violations (`data.violations || []`), the frame
size, and — only when a frame is present — the synced frame. -/
def onWsMessage (s : PageState) (m : Option WsMessage) : PageState :=
  match m with
  | some (WsMessage.detectionResult r vs fr) =>
      { s with result := some r
               violations := vs.getD []
               frameSize := (r.frame_width, r.frame_height)
               syncedFrame :=
                 match fr with
                 | some f => some f
                 | none => s.syncedFrame }
  | _ => s

/-- The media element actually displayed, from the `DetectionPage` JSX
(lines 408-437): for a stream camera, the synced annotated frame when
detecting and one is present, else the raw video element; for a snapshot
camera, the proxied snapshot image. -/
inductive Surface where
  | syncedImage : String → Surface
  | video : Surface
  | snapshotImage : Surface
deriving DecidableEq

/-- `isM3u8 ? (isDetecting && syncedFrame ? <img synced> : <video>) :
<img snapshot>`. -/
def displayedSurface (isM3u8 isDetecting : Bool) (syncedFrame : Option String) :
    Surface :=
  if isM3u8 then
    if isDetecting then
      match syncedFrame with
      | some f => Surface.syncedImage f
      | none => Surface.video
    else Surface.video
  else Surface.snapshotImage

/-! ## Theorems -/

/-- The JS `||` guard never yields zero when its default is nonzero. -/
theorem jsOrNum_ne_zero (v : Option ℚ) (d : ℚ) (hd : d ≠ 0) : jsOrNum v d ≠ 0 := by
  cases v with
  | none => simpa [jsOrNum] using hd
  | some x =>
      by_cases hx : x = 0
      · simpa [jsOrNum, hx] using hd
      · simp [jsOrNum, hx]

/-- With positive supplied dimensions the `||` guards are identities, so
the scale factors are the plain quotients. -/
theorem scaleX_pos_dims (containerWidth frameWidth : ℚ)
    (hc : containerWidth ≠ 0) (hf : frameWidth ≠ 0) :
    scaleX (some containerWidth) (some frameWidth) = containerWidth / frameWidth := by
  simp [scaleX, safeContainerWidth, safeFrameWidth, jsOrNum, hc, hf]

/-- Companion of `scaleX_pos_dims` for the vertical axis. -/
theorem scaleY_pos_dims (containerHeight frameHeight : ℚ)
    (hc : containerHeight ≠ 0) (hf : frameHeight ≠ 0) :
    scaleY (some containerHeight) (some frameHeight) = containerHeight / frameHeight := by
  simp [scaleY, safeContainerHeight, safeFrameHeight, jsOrNum, hc, hf]

/-- C1: for every point `p`, every canvas origin and every frame/viewport
dimension pair with positive dimensions, drawing `p` at its viewport
position (`toViewport`, i.e. multiplying by `scaleX`/`scaleY`) and mapping
the resulting client position back with `toFrameCoords` (subtracting the
canvas origin and dividing by the same scale factors) returns `p` exactly
— over exact rational arithmetic, hence within any floating-point
tolerance. -/
theorem toFrame_toViewport_roundtrip
    (frameWidth frameHeight containerWidth containerHeight : ℚ)
    (hfw : 0 < frameWidth) (hfh : 0 < frameHeight)
    (hcw : 0 < containerWidth) (hch : 0 < containerHeight)
    (p : Point) (rect : DOMRect) :
    toFrameCoords (scaleX (some containerWidth) (some frameWidth))
      (scaleY (some containerHeight) (some frameHeight))
      (rect.left + (toViewport (scaleX (some containerWidth) (some frameWidth))
        (scaleY (some containerHeight) (some frameHeight)) p).x)
      (rect.top + (toViewport (scaleX (some containerWidth) (some frameWidth))
        (scaleY (some containerHeight) (some frameHeight)) p).y)
      rect = p := by
  have hfw0 : frameWidth ≠ 0 := ne_of_gt hfw
  have hfh0 : frameHeight ≠ 0 := ne_of_gt hfh
  have hcw0 : containerWidth ≠ 0 := ne_of_gt hcw
  have hch0 : containerHeight ≠ 0 := ne_of_gt hch
  obtain ⟨px, py⟩ := p
  simp only [toFrameCoords, toViewport, scaleX_pos_dims _ _ hcw0 hfw0,
    scaleY_pos_dims _ _ hch0 hfh0, Point.mk.injEq]
  constructor
  · rw [add_sub_cancel_left]
    field_simp
  · rw [add_sub_cancel_left]
    field_simp

/-- Witness for the round-trip law at frame 1920×1080, viewport 800×450,
canvas origin (10, 20) and the point (100, 100). -/
theorem toFrame_toViewport_roundtrip_witness :
    (0:ℚ) < 1920 ∧ (0:ℚ) < 1080 ∧ (0:ℚ) < 800 ∧ (0:ℚ) < 450 ∧
    toFrameCoords (scaleX (some 800) (some 1920)) (scaleY (some 450) (some 1080))
      ((10:ℚ) + (toViewport (scaleX (some 800) (some 1920))
        (scaleY (some 450) (some 1080)) { x := 100, y := 100 }).x)
      ((20:ℚ) + (toViewport (scaleX (some 800) (some 1920))
        (scaleY (some 450) (some 1080)) { x := 100, y := 100 }).y)
      { left := 10, top := 20 } = { x := 100, y := 100 } :=
  ⟨by norm_num, by norm_num, by norm_num, by norm_num,
    toFrame_toViewport_roundtrip 1920 1080 800 450
      (by norm_num) (by norm_num) (by norm_num) (by norm_num)
      { x := 100, y := 100 } { left := 10, top := 20 }⟩

/-- C6: a zero or undefined frame/container dimension is replaced by the
fixed default (640 for widths, 360 for heights), and for every input —
supplied, zero or undefined — the guarded dimensions and both scale
factors are nonzero, so no division by zero occurs (over `ℚ` every value
is finite). -/
theorem safe_dimensions_nonzero
    (frameWidth frameHeight containerWidth containerHeight : Option ℚ) :
    safeFrameWidth none = 640 ∧ safeFrameWidth (some 0) = 640 ∧
    safeFrameHeight none = 360 ∧ safeFrameHeight (some 0) = 360 ∧
    safeContainerWidth none = 640 ∧ safeContainerWidth (some 0) = 640 ∧
    safeContainerHeight none = 360 ∧ safeContainerHeight (some 0) = 360 ∧
    safeFrameWidth frameWidth ≠ 0 ∧ safeFrameHeight frameHeight ≠ 0 ∧
    safeContainerWidth containerWidth ≠ 0 ∧
    safeContainerHeight containerHeight ≠ 0 ∧
    scaleX containerWidth frameWidth ≠ 0 ∧
    scaleY containerHeight frameHeight ≠ 0 := by
  refine ⟨by norm_num [safeFrameWidth, jsOrNum], by norm_num [safeFrameWidth, jsOrNum],
    by norm_num [safeFrameHeight, jsOrNum], by norm_num [safeFrameHeight, jsOrNum],
    by norm_num [safeContainerWidth, jsOrNum], by norm_num [safeContainerWidth, jsOrNum],
    by norm_num [safeContainerHeight, jsOrNum], by norm_num [safeContainerHeight, jsOrNum],
    ?_, ?_, ?_, ?_, ?_, ?_⟩
  · exact jsOrNum_ne_zero _ _ (by norm_num)
  · exact jsOrNum_ne_zero _ _ (by norm_num)
  · exact jsOrNum_ne_zero _ _ (by norm_num)
  · exact jsOrNum_ne_zero _ _ (by norm_num)
  · exact div_ne_zero (jsOrNum_ne_zero _ _ (by norm_num))
      (jsOrNum_ne_zero _ _ (by norm_num))
  · exact div_ne_zero (jsOrNum_ne_zero _ _ (by norm_num))
      (jsOrNum_ne_zero _ _ (by norm_num))

/-- C7: with frame 1920×1080 and viewport 800×450 both scale factors are
5/12, and the detection box (100, 100)-(300, 300) is stroked at the
viewport rectangle (125/3, 125/3, 250/3, 250/3), i.e. x ≈ 41.7,
y ≈ 41.7, w ≈ 83.3, h ≈ 83.3 within 0.05. -/
theorem detection_box_scaling_scenario :
    detectionViewportRect (scaleX (some 800) (some 1920))
        (scaleY (some 450) (some 1080))
        { x1 := 100, y1 := 100, x2 := 300, y2 := 300 } =
      { x := 125/3, y := 125/3, w := 250/3, h := 250/3 } ∧
    scaleX (some 800) (some 1920) = 5/12 ∧
    scaleY (some 450) (some 1080) = 5/12 ∧
    |(125:ℚ)/3 - 417/10| < 5/100 ∧ |(250:ℚ)/3 - 833/10| < 5/100 := by
  refine ⟨?_, ?_, ?_, ?_, ?_⟩
  · norm_num [detectionViewportRect, scaleX, scaleY, safeContainerWidth,
      safeFrameWidth, safeContainerHeight, safeFrameHeight, jsOrNum]
  · norm_num [scaleX, safeContainerWidth, safeFrameWidth, jsOrNum]
  · norm_num [scaleY, safeContainerHeight, safeFrameHeight, jsOrNum]
  · rw [abs_sub_lt_iff]
    norm_num
  · rw [abs_sub_lt_iff]
    norm_num

/-- C2: a detection whose `track_id` is null is never rendered as a
violation: whatever the violation list and the display toggles, it is
stroked with its class-keyed color (green default), line width 3, and no
violation callout. -/
theorem null_track_id_never_violation
    (showLabels showViolations : Bool) (violations : List ParkingViolation)
    (sx sy : ℚ) (det : Detection) (h : det.track_id = none) :
    renderDetection showLabels showViolations violations sx sy det =
      { rect := detectionViewportRect sx sy det.bbox
        color := (CLASS_COLORS det.class_name).getD "#00FF00"
        lineWidth := 3
        label := if showLabels then some (none, det.class_name, det.confidence) else none
        callout := none } := by
  simp [renderDetection, isViolationDet, getColor, h]

/-- Witness for C2: a concrete untracked car detection is rendered
non-violating even though the violation list is nonempty. -/
theorem null_track_id_never_violation_witness :
    renderDetection true true
      [{ track_id := 7, vehicle_class := "car", zone_id := "z1", zone_name := "Z",
         duration_seconds := 12, bbox := { x1 := 0, y1 := 0, x2 := 1, y2 := 1 } }]
      1 1
      { bbox := { x1 := 0, y1 := 0, x2 := 2, y2 := 2 }, class_name := "car",
        class_id := 2, confidence := 9/10, track_id := none } =
      { rect := { x := 0, y := 0, w := 2, h := 2 }, color := "#00FF00",
        lineWidth := 3, label := some (none, "car", 9/10), callout := none } := by
  rw [null_track_id_never_violation true true _ 1 1 _ rfl]
  simp [detectionViewportRect, CLASS_COLORS]

/-- C4: the zone editor's save is blocked locally — no zone is handed to
`onZoneAdd`, and the in-progress points, pending name, pending role and
pending link are left untouched — when the pending zone is a stop line
with no link target, and likewise when fewer than 3 points are placed;
with at least 3 points and a non-empty link, saving a stop line succeeds
and the produced zone carries that link. -/
theorem zone_save_validation (newId : String) (zones : List ZonePolygon)
    (st : EditorState) :
    (st.zoneType = ZoneType.stop_line → st.linkedTrafficLightId = "" →
      handleSaveZone newId zones st = (none, st)) ∧
    (st.currentPoints.length < 3 →
      handleSaveZone newId zones st = (none, st)) ∧
    (3 ≤ st.currentPoints.length → st.zoneType = ZoneType.stop_line →
      st.linkedTrafficLightId ≠ "" →
      handleSaveZone newId zones st =
        (some (savedZone newId zones st), emptyEditorState) ∧
      (savedZone newId zones st).linked_traffic_light_id =
        some st.linkedTrafficLightId ∧
      (savedZone newId zones st).is_stop_line = true) := by
  refine ⟨?_, ?_, ?_⟩
  · intro h1 h2
    by_cases hp : st.currentPoints.length < 3
    · simp [handleSaveZone, hp]
    · simp [handleSaveZone, hp, h1, h2]
  · intro hp
    simp [handleSaveZone, hp]
  · intro hp h1 h2
    have hp' : ¬ st.currentPoints.length < 3 := Nat.not_lt.mpr hp
    refine ⟨by simp [handleSaveZone, hp', h1, h2], ?_, ?_⟩
    · simp [savedZone, h1]
    · simp [savedZone, h1]

/-- Witness for C4: a stop line with three points and no link is blocked
with the state untouched; a single-point zone is blocked; a stop line
linked to `"tl1"` is saved carrying that link. -/
theorem zone_save_validation_witness :
    handleSaveZone "z1" []
        ⟨[⟨0, 0⟩, ⟨4, 0⟩, ⟨4, 4⟩], "S", ZoneType.stop_line, ""⟩ =
      (none, ⟨[⟨0, 0⟩, ⟨4, 0⟩, ⟨4, 4⟩], "S", ZoneType.stop_line, ""⟩) ∧
    handleSaveZone "z2" [] ⟨[⟨0, 0⟩], "", ZoneType.normal, ""⟩ =
      (none, ⟨[⟨0, 0⟩], "", ZoneType.normal, ""⟩) ∧
    (savedZone "z3" []
        ⟨[⟨0, 0⟩, ⟨4, 0⟩, ⟨4, 4⟩], "S", ZoneType.stop_line, "tl1"⟩).linked_traffic_light_id =
      some "tl1" ∧
    handleSaveZone "z3" []
        ⟨[⟨0, 0⟩, ⟨4, 0⟩, ⟨4, 4⟩], "S", ZoneType.stop_line, "tl1"⟩ =
      (some (savedZone "z3" []
        ⟨[⟨0, 0⟩, ⟨4, 0⟩, ⟨4, 4⟩], "S", ZoneType.stop_line, "tl1"⟩), emptyEditorState) := by
  refine ⟨(zone_save_validation "z1" [] _).1 rfl rfl,
          (zone_save_validation "z2" [] _).2.1 (by simp),
          ((zone_save_validation "z3" [] _).2.2 (by simp) rfl (by decide)).2.1,
          ((zone_save_validation "z3" [] _).2.2 (by simp) rfl (by decide)).1⟩

/-- C8: every zone a successful editor save produces satisfies the role
invariant: at most one of the three role flags is set (all false for a
normal zone), the link is non-null exactly when the zone is a stop line,
and `is_red_light` is false at creation. -/
theorem saved_zone_role_invariant (newId : String) (zones : List ZonePolygon)
    (st st' : EditorState) (z : ZonePolygon)
    (h : handleSaveZone newId zones st = (some z, st')) :
    (z.is_parking_zone = true → z.is_traffic_light = false ∧ z.is_stop_line = false) ∧
    (z.is_traffic_light = true → z.is_parking_zone = false ∧ z.is_stop_line = false) ∧
    (z.is_stop_line = true → z.is_parking_zone = false ∧ z.is_traffic_light = false) ∧
    (st.zoneType = ZoneType.normal →
      z.is_parking_zone = false ∧ z.is_traffic_light = false ∧ z.is_stop_line = false) ∧
    (z.linked_traffic_light_id ≠ none ↔ z.is_stop_line = true) ∧
    z.is_red_light = false := by
  unfold handleSaveZone at h
  split_ifs at h with h1 h2
  · exact absurd h (by simp)
  · exact absurd h (by simp)
  · simp only [Prod.mk.injEq, Option.some.injEq] at h
    obtain ⟨hz, -⟩ := h
    subst hz
    cases hzt : st.zoneType <;> simp [savedZone, hzt]

/-- Witness for C8 at a concrete saved parking zone. -/
theorem saved_zone_role_invariant_witness :
    ((savedZone "z9" [] ⟨[⟨0, 0⟩, ⟨4, 0⟩, ⟨4, 4⟩], "P", ZoneType.parking, ""⟩).is_parking_zone = true →
      (savedZone "z9" [] ⟨[⟨0, 0⟩, ⟨4, 0⟩, ⟨4, 4⟩], "P", ZoneType.parking, ""⟩).is_traffic_light = false ∧
      (savedZone "z9" [] ⟨[⟨0, 0⟩, ⟨4, 0⟩, ⟨4, 4⟩], "P", ZoneType.parking, ""⟩).is_stop_line = false) ∧
    ((savedZone "z9" [] ⟨[⟨0, 0⟩, ⟨4, 0⟩, ⟨4, 4⟩], "P", ZoneType.parking, ""⟩).is_traffic_light = true →
      (savedZone "z9" [] ⟨[⟨0, 0⟩, ⟨4, 0⟩, ⟨4, 4⟩], "P", ZoneType.parking, ""⟩).is_parking_zone = false ∧
      (savedZone "z9" [] ⟨[⟨0, 0⟩, ⟨4, 0⟩, ⟨4, 4⟩], "P", ZoneType.parking, ""⟩).is_stop_line = false) ∧
    ((savedZone "z9" [] ⟨[⟨0, 0⟩, ⟨4, 0⟩, ⟨4, 4⟩], "P", ZoneType.parking, ""⟩).is_stop_line = true →
      (savedZone "z9" [] ⟨[⟨0, 0⟩, ⟨4, 0⟩, ⟨4, 4⟩], "P", ZoneType.parking, ""⟩).is_parking_zone = false ∧
      (savedZone "z9" [] ⟨[⟨0, 0⟩, ⟨4, 0⟩, ⟨4, 4⟩], "P", ZoneType.parking, ""⟩).is_traffic_light = false) ∧
    ((⟨[⟨0, 0⟩, ⟨4, 0⟩, ⟨4, 4⟩], "P", ZoneType.parking, ""⟩ : EditorState).zoneType = ZoneType.normal →
      (savedZone "z9" [] ⟨[⟨0, 0⟩, ⟨4, 0⟩, ⟨4, 4⟩], "P", ZoneType.parking, ""⟩).is_parking_zone = false ∧
      (savedZone "z9" [] ⟨[⟨0, 0⟩, ⟨4, 0⟩, ⟨4, 4⟩], "P", ZoneType.parking, ""⟩).is_traffic_light = false ∧
      (savedZone "z9" [] ⟨[⟨0, 0⟩, ⟨4, 0⟩, ⟨4, 4⟩], "P", ZoneType.parking, ""⟩).is_stop_line = false) ∧
    ((savedZone "z9" [] ⟨[⟨0, 0⟩, ⟨4, 0⟩, ⟨4, 4⟩], "P", ZoneType.parking, ""⟩).linked_traffic_light_id ≠ none ↔
      (savedZone "z9" [] ⟨[⟨0, 0⟩, ⟨4, 0⟩, ⟨4, 4⟩], "P", ZoneType.parking, ""⟩).is_stop_line = true) ∧
    (savedZone "z9" [] ⟨[⟨0, 0⟩, ⟨4, 0⟩, ⟨4, 4⟩], "P", ZoneType.parking, ""⟩).is_red_light = false :=
  saved_zone_role_invariant "z9" [] _ emptyEditorState _ (by decide)

/-- C10: Undo removes exactly the last placed point, leaves every earlier
point and the pending name, role and link target unchanged, and leaves an
empty point list empty. -/
theorem undo_drops_last_point (st : EditorState) (ps : List Point) (p : Point) :
    (handleUndo st).zoneName = st.zoneName ∧
    (handleUndo st).zoneType = st.zoneType ∧
    (handleUndo st).linkedTrafficLightId = st.linkedTrafficLightId ∧
    (st.currentPoints = ps ++ [p] → (handleUndo st).currentPoints = ps) ∧
    (st.currentPoints = [] → (handleUndo st).currentPoints = []) := by
  refine ⟨rfl, rfl, rfl, ?_, ?_⟩
  · intro h
    simp [handleUndo, h]
  · intro h
    simp [handleUndo, h]

/-- Witness for C10 at a two-point drawing state and at the empty state. -/
theorem undo_drops_last_point_witness :
    (handleUndo ⟨[⟨0, 0⟩, ⟨1, 1⟩], "n", ZoneType.parking, "x"⟩).currentPoints = [⟨0, 0⟩] ∧
    (handleUndo ⟨[⟨0, 0⟩, ⟨1, 1⟩], "n", ZoneType.parking, "x"⟩).zoneName = "n" ∧
    (handleUndo ⟨[], "n", ZoneType.normal, ""⟩).currentPoints = [] :=
  ⟨(undo_drops_last_point ⟨[⟨0, 0⟩, ⟨1, 1⟩], "n", ZoneType.parking, "x"⟩ [⟨0, 0⟩] ⟨1, 1⟩).2.2.2.1 rfl,
   (undo_drops_last_point ⟨[⟨0, 0⟩, ⟨1, 1⟩], "n", ZoneType.parking, "x"⟩ [] ⟨0, 0⟩).1,
   (undo_drops_last_point ⟨[], "n", ZoneType.normal, ""⟩ [] ⟨0, 0⟩).2.2.2.2 rfl⟩

/-- C9: in stream-detection mode the client's open payload is
`{video_url, send_frame: true}`; every `detection_result` message replaces
the detection result, the violation list (empty when absent) and the frame
size; a carried frame replaces the synced-frame override and hence the
displayed surface; a message that fails to parse leaves the whole state —
in particular the open socket — untouched. -/
theorem stream_detection_message_handling
    (cameraUrl : String) (s : PageState) (r : DetectionResult)
    (vs : Option (List ParkingViolation)) (f : String) :
    (wsOnOpenPayload cameraUrl).video_url = cameraUrl ∧
    (wsOnOpenPayload cameraUrl).send_frame = true ∧
    (onWsMessage s (some (WsMessage.detectionResult r vs (some f)))).result = some r ∧
    (onWsMessage s (some (WsMessage.detectionResult r vs (some f)))).violations = vs.getD [] ∧
    (onWsMessage s (some (WsMessage.detectionResult r vs (some f)))).frameSize =
      (r.frame_width, r.frame_height) ∧
    (onWsMessage s (some (WsMessage.detectionResult r vs (some f)))).syncedFrame = some f ∧
    displayedSurface true true (some f) = Surface.syncedImage f ∧
    (onWsMessage s (some (WsMessage.detectionResult r vs none))).result = some r ∧
    (onWsMessage s (some (WsMessage.detectionResult r vs none))).syncedFrame = s.syncedFrame ∧
    onWsMessage s none = s ∧
    (onWsMessage s none).wsOpen = s.wsOpen :=
  ⟨rfl, rfl, rfl, rfl, rfl, rfl, rfl, rfl, rfl, rfl, rfl⟩

/-- Counterexample to C3 as stated: toggling detection off does not clear
the violation state.  At a concrete state holding one parking violation,
the toggle-off branch (`DetectionPage` lines 300-311) leaves the violation
list nonempty: the code writes `setResult(null)` and `setSyncedFrame(null)`
but never `setViolations([])`. -/
theorem detection_toggle_off_keeps_violations :
    (detectionToggledOff
      { wsOpen := true, timerActive := false,
        result := some
          { detections :=
              [{ bbox := { x1 := 0, y1 := 0, x2 := 1, y2 := 1 },
                 class_name := "car", class_id := 2, confidence := 9/10,
                 track_id := some 7 }],
            vehicle_count := [("car", 1)], total_count := 1,
            frame_width := 1920, frame_height := 1080,
            processing_time_ms := 50 },
        violations :=
          [{ track_id := 7, vehicle_class := "car", zone_id := "z1",
             zone_name := "Z", duration_seconds := 12,
             bbox := { x1 := 0, y1 := 0, x2 := 1, y2 := 1 } }],
        frameSize := (1920, 1080),
        syncedFrame := some "frame" }).violations =
      [{ track_id := 7, vehicle_class := "car", zone_id := "z1",
         zone_name := "Z", duration_seconds := 12,
         bbox := { x1 := 0, y1 := 0, x2 := 1, y2 := 1 } }] ∧
    ([{ track_id := 7, vehicle_class := "car", zone_id := "z1",
        zone_name := "Z", duration_seconds := 12,
        bbox := { x1 := 0, y1 := 0, x2 := 1, y2 := 1 } }] :
      List ParkingViolation) ≠ [] :=
  ⟨rfl, by simp⟩

/-- C3 as amended: toggling detection off closes the socket, clears the
polling timer, clears the detection result and the synced annotated-frame
override, and reverts the displayed surface to the raw video element
(stream camera) or the raw snapshot image (snapshot camera); the violation
list is left unchanged, not cleared. -/
theorem detection_toggle_off_effect (s : PageState) :
    (detectionToggledOff s).wsOpen = false ∧
    (detectionToggledOff s).timerActive = false ∧
    (detectionToggledOff s).result = none ∧
    (detectionToggledOff s).syncedFrame = none ∧
    (detectionToggledOff s).violations = s.violations ∧
    (detectionToggledOff s).frameSize = s.frameSize ∧
    displayedSurface true false (detectionToggledOff s).syncedFrame = Surface.video ∧
    displayedSurface false false (detectionToggledOff s).syncedFrame =
      Surface.snapshotImage :=
  ⟨rfl, rfl, rfl, rfl, rfl, rfl, rfl, rfl⟩

/-- A red traffic-light zone with only 2 points: skipped by both draw
loops, yet still visible to the linked-light lookup. -/
def c5ShortLight : ZonePolygon :=
  { id := "tl1", name := "L", points := [{ x := 0, y := 0 }, { x := 1, y := 0 }],
    is_parking_zone := false, is_traffic_light := true, is_red_light := true,
    is_stop_line := false, linked_traffic_light_id := none, color := "#FFFF00" }

/-- A 3-point stop-line zone linked to `c5ShortLight`. -/
def c5StopLine : ZonePolygon :=
  { id := "sl1", name := "S",
    points := [{ x := 0, y := 0 }, { x := 4, y := 0 }, { x := 4, y := 4 }],
    is_parking_zone := false, is_traffic_light := false, is_red_light := false,
    is_stop_line := true, linked_traffic_light_id := some "tl1", color := "#FFFFFF" }

/-- Counterexample to C5 as stated: in the polygon editor's draw pass a
skipped short zone still alters another zone's rendering.  The 2-point red
traffic light `c5ShortLight` is itself skipped, but the stop line linked
to it fills red while it is in the list and white once it is absent, so
the two repaints differ. -/
theorem short_zone_alters_other_zone_rendering :
    c5ShortLight.points.length < 3 ∧
    (peRenderZones 1 1 [c5ShortLight, c5StopLine]).map (fun r => r.fill) =
      ["rgba(255, 0, 0, 0.4)"] ∧
    (peRenderZones 1 1 [c5StopLine]).map (fun r => r.fill) =
      ["rgba(255, 255, 255, 0.3)"] ∧
    peRenderZones 1 1 [c5ShortLight, c5StopLine] ≠ peRenderZones 1 1 [c5StopLine] := by
  have h1 : (peRenderZones 1 1 [c5ShortLight, c5StopLine]).map (fun r => r.fill) =
      ["rgba(255, 0, 0, 0.4)"] := by decide
  have h2 : (peRenderZones 1 1 [c5StopLine]).map (fun r => r.fill) =
      ["rgba(255, 255, 255, 0.3)"] := by decide
  refine ⟨by decide, h1, h2, fun hEq => ?_⟩
  rw [hEq, h2] at h1
  exact absurd h1 (by decide)

/-- The `zones.length > 0` guard of the `DetectionViewer` zone pass is
observationally redundant: an empty list filter-maps to the empty repaint
anyway. -/
theorem dvRenderZones_guard (showZones showLabels : Bool) (sx sy : ℚ)
    (zones : List ZonePolygon) :
    dvRenderZones showZones showLabels sx sy zones =
      if showZones then zones.filterMap (dvRenderZone showLabels sx sy)
      else [] := by
  cases showZones with
  | false => simp [dvRenderZones]
  | true =>
      cases zones with
      | nil => simp [dvRenderZones]
      | cons a l => simp [dvRenderZones]

/-- C5 as amended: a zone with fewer than 3 points is itself skipped
without error by both draw passes, and in `DetectionViewer`'s zone pass
removing it leaves every other zone's rendering — indeed the whole repaint
— unchanged.  (In the polygon editor's pass the same skip happens, but
other zones' renderings may still depend on the skipped zone through the
stop-line linked-light lookup, as the counterexample shows.) -/
theorem short_zone_skipped (showZones showLabels : Bool) (sx sy : ℚ)
    (zones zs1 zs2 : List ZonePolygon) (z : ZonePolygon)
    (h : z.points.length < 3) :
    dvRenderZone showLabels sx sy z = none ∧
    peRenderZone zones sx sy z = none ∧
    dvRenderZones showZones showLabels sx sy (zs1 ++ z :: zs2) =
      dvRenderZones showZones showLabels sx sy (zs1 ++ zs2) := by
  have hz : dvRenderZone showLabels sx sy z = none := by simp [dvRenderZone, h]
  have hz2 : peRenderZone zones sx sy z = none := by simp [peRenderZone, h]
  refine ⟨hz, hz2, ?_⟩
  rw [dvRenderZones_guard showZones showLabels sx sy (zs1 ++ z :: zs2),
    dvRenderZones_guard showZones showLabels sx sy (zs1 ++ zs2)]
  cases showZones with
  | false => simp
  | true =>
      rw [if_pos rfl, if_pos rfl]
      rw [List.filterMap_append, List.filterMap_append]
      congr 1
      simp [List.filterMap_cons, hz]

/-- Witness for the amended C5 at the concrete zone pair. -/
theorem short_zone_skipped_witness :
    dvRenderZone true 1 1 c5ShortLight = none ∧
    peRenderZone [c5ShortLight, c5StopLine] 1 1 c5ShortLight = none ∧
    dvRenderZones true true 1 1 ([c5StopLine] ++ c5ShortLight :: []) =
      dvRenderZones true true 1 1 ([c5StopLine] ++ []) := by
  have h := short_zone_skipped true true 1 1 [c5ShortLight, c5StopLine]
    [c5StopLine] [] c5ShortLight (by decide)
  exact ⟨h.1, h.2.1, h.2.2⟩

end ITS
